import Mathlib

/-
Verification of the MCP client bridge in
`src/autogen_app/autogen_mcp_bridge.py` (class `MCPClientBridge`).

The bridge launches child processes, exchanges newline-delimited JSON-RPC
messages with them over stdio, and exposes `call_tool` / `list_tools` /
`start_servers` / `shutdown`.  The development below is a shallow embedding
of that code: JSON values are an inductive type, Python dict/list operations
are modelled by total Lean functions returning `Except` for the paths where
Python would raise, the child's stdout is a finite list of read events
(chunks, as delivered by `process.stdout.read(8192)` under
`asyncio.wait_for`, or a timeout), and every method of `MCPClientBridge`
becomes a pure state-passing function.
-/

set_option autoImplicit false

namespace Mdk

/-- JSON values, as produced by `json.loads` and held in Python variables. -/
inductive JValue where
  | null
  | bool (b : Bool)
  | num (n : Int)
  | str (s : String)
  | arr (items : List JValue)
  | obj (fields : List (String × JValue))

/-- Lookup of a key in the field list of a JSON object (Python `d[k]` /
`d.get(k)` on a dict; field lists built by the parser have unique keys). -/
def dictLookup : List (String × JValue) → String → Option JValue
  | [], _ => none
  | (k, v) :: rest, key => if k = key then some v else dictLookup rest key

/-- Membership of a key in a JSON object (Python `k in d` on a dict). -/
def dictContains (fields : List (String × JValue)) (key : String) : Bool :=
  (dictLookup fields key).isSome

/-- Insert or overwrite a field, keeping keys unique (Python `d[k] = v`). -/
def setField (fields : List (String × JValue)) (key : String) (v : JValue) :
    List (String × JValue) :=
  if dictContains fields key then
    fields.map (fun p => if p.1 = key then (key, v) else p)
  else
    fields ++ [(key, v)]

/-- Substring test (Python `sub in s` on a str). -/
def strContains (s sub : String) : Bool :=
  if sub = "" then true else (s.splitOn sub).length != 1

/-- Python exceptions that the bridge code can raise.  Constructors carry the
data the corresponding `raise` statement interpolates into its message. -/
inductive PyError where
  /-- `raise ValueError(msg)` with the given message. -/
  | valueError (msg : String)
  /-- `raise Exception(msg)` with the given literal message. -/
  | exc (msg : String)
  /-- `raise Exception(f"MCP Error: ...")` carrying `response["error"]`. -/
  | excMCP (payload : JValue)
  /-- `raise Exception(f"Initialization failed: ...")` carrying `response["error"]`. -/
  | excInit (payload : JValue)
  /-- `raise Exception(f"Failed to list tools: ...")` carrying `response["error"]`. -/
  | excListTools (payload : JValue)
  /-- `json.JSONDecodeError` raised by `json.loads` on the given line. -/
  | jsonDecodeError (line : String)
  /-- `UnboundLocalError`: a local variable is referenced before assignment. -/
  | unboundLocal (var : String)
  /-- `AttributeError`, e.g. calling `.get` on a non-dict. -/
  | attributeError (msg : String)
  /-- `TypeError`, e.g. `in` on a non-container or `d[k]` on a non-dict. -/
  | typeError (msg : String)
  /-- `KeyError` from `d[k]` when the key is absent. -/
  | keyError (key : String)
  /-- The modelled event stream ran out: the real coroutine would still be
  awaiting more data from the child.  Event lists that end with a newline,
  an EOF chunk or a timeout never reach this case. -/
  | pending

/-- Python `key in v` for the JSON values `json.loads` can return: key
membership on dicts, element equality on lists, substring test on strings,
`TypeError` otherwise. -/
def pyIn (key : String) (v : JValue) : Except PyError Bool :=
  match v with
  | .obj fields => .ok (dictContains fields key)
  | .arr xs => .ok (xs.any (fun x => match x with | .str s => s = key | _ => false))
  | .str s => .ok (strContains s key)
  | _ => .error (.typeError "argument of type is not iterable")

/-- Python `v[key]` with a string key: dict indexing, `KeyError` when the key
is absent, `TypeError` on any non-dict. -/
def pyIndex (v : JValue) (key : String) : Except PyError JValue :=
  match v with
  | .obj fields =>
    match dictLookup fields key with
    | some x => .ok x
    | none => .error (.keyError key)
  | _ => .error (.typeError "indices must be integers")

/-- Python `v.get(key, dflt)`: defaulted dict lookup, `AttributeError` on any
non-dict. -/
def pyGetD (v : JValue) (key : String) (dflt : JValue) : Except PyError JValue :=
  match v with
  | .obj fields => .ok ((dictLookup fields key).getD dflt)
  | _ => .error (.attributeError "object has no attribute get")

/-- Whitespace skipping for the JSON parser. -/
def skipWs : List Char → List Char
  | c :: cs => if c = ' ' ∨ c = '\n' ∨ c = '\t' ∨ c = '\r' then skipWs cs else c :: cs
  | [] => []

/-- Body of a JSON string literal, after the opening quote; `acc` holds the
characters read so far, reversed. -/
def parseStringBody : List Char → List Char → Option (String × List Char)
  | acc, '"' :: cs => some (String.mk acc.reverse, cs)
  | acc, '\\' :: e :: cs =>
    (match e with
     | '"' => some '"'
     | '\\' => some '\\'
     | '/' => some '/'
     | 'n' => some '\n'
     | 't' => some '\t'
     | 'r' => some '\r'
     | _ => none).bind (fun d => parseStringBody (d :: acc) cs)
  | acc, c :: cs => if c = '\n' then none else parseStringBody (c :: acc) cs
  | _, [] => none

/-- Numeric value of a decimal digit. -/
def digitVal (c : Char) : Option Nat :=
  if '0' ≤ c ∧ c ≤ '9' then some (c.toNat - '0'.toNat) else none

/-- Read a run of decimal digits, accumulating their value. -/
def parseDigits : Nat → List Char → Nat × List Char
  | acc, c :: cs =>
    match digitVal c with
    | some d => parseDigits (acc * 10 + d) cs
    | none => (acc, c :: cs)
  | acc, [] => (acc, [])

mutual

/-- Parse one JSON value (fuel-indexed recursive-descent; the fuel bounds the
nesting of the grammar and is chosen larger than the input length). -/
def parseVal : Nat → List Char → Option (JValue × List Char)
  | 0, _ => none
  | fuel + 1, cs =>
    match skipWs cs with
    | 'n' :: 'u' :: 'l' :: 'l' :: rest => some (.null, rest)
    | 't' :: 'r' :: 'u' :: 'e' :: rest => some (.bool true, rest)
    | 'f' :: 'a' :: 'l' :: 's' :: 'e' :: rest => some (.bool false, rest)
    | '"' :: rest => (parseStringBody [] rest).map (fun p => (.str p.1, p.2))
    | '[' :: rest =>
      (match skipWs rest with
       | ']' :: rest2 => some (.arr [], rest2)
       | other => parseArrLoop fuel [] other)
    | '{' :: rest =>
      (match skipWs rest with
       | '}' :: rest2 => some (.obj [], rest2)
       | other => parseObjLoop fuel [] other)
    | '-' :: c :: rest =>
      (digitVal c).map (fun d =>
        let p := parseDigits d rest
        (.num (-(p.1 : Int)), p.2))
    | c :: rest =>
      (digitVal c).map (fun d =>
        let p := parseDigits d rest
        (.num (p.1 : Int), p.2))
    | [] => none

/-- Parse the comma-separated items of a non-empty JSON array. -/
def parseArrLoop : Nat → List JValue → List Char → Option (JValue × List Char)
  | 0, _, _ => none
  | fuel + 1, acc, cs =>
    match parseVal fuel cs with
    | none => none
    | some (v, rest) =>
      match skipWs rest with
      | ',' :: rest2 => parseArrLoop fuel (acc ++ [v]) rest2
      | ']' :: rest2 => some (.arr (acc ++ [v]), rest2)
      | _ => none

/-- Parse the comma-separated members of a non-empty JSON object; duplicate
keys overwrite earlier ones, as in Python dicts. -/
def parseObjLoop : Nat → List (String × JValue) → List Char → Option (JValue × List Char)
  | 0, _, _ => none
  | fuel + 1, acc, cs =>
    match skipWs cs with
    | '"' :: rest =>
      (match parseStringBody [] rest with
       | none => none
       | some (key, rest2) =>
         match skipWs rest2 with
         | ':' :: rest3 =>
           (match parseVal fuel rest3 with
            | none => none
            | some (v, rest4) =>
              match skipWs rest4 with
              | ',' :: rest5 => parseObjLoop fuel (setField acc key v) rest5
              | '}' :: rest5 => some (.obj (setField acc key v), rest5)
              | _ => none)
         | _ => none)
    | _ => none

end

/-- Python `json.loads` on a complete line: one JSON value, possibly
surrounded by whitespace, and nothing else. -/
def jsonLoads (s : String) : Option JValue :=
  match parseVal (s.length + 2) s.data with
  | some (v, rest) => if skipWs rest = [] then some v else none
  | none => none

/-- One outcome of `await asyncio.wait_for(process.stdout.read(8192), ...)` in
`_send_request`: either a chunk of bytes (the empty chunk models end-of-file,
where `read` returns `b""`) or an `asyncio.TimeoutError`. -/
inductive ReadEvent where
  /-- A chunk of bytes delivered by the underlying read (empty = EOF). -/
  | chunk (s : String)
  /-- The 60-second `asyncio.wait_for` timeout fired. -/
  | timeoutEv
deriving DecidableEq

/-- How the `while True` read loop of `_send_request` (lines 312-332) ends. -/
inductive ReadOutcome where
  /-- A newline appeared in `response_data`; `response_line` was assigned the
  bytes strictly before the first newline, and the loop broke.  `rest` is the
  transport data not yet consumed; note that the bytes of the current buffer
  past the newline are in neither component. -/
  | line (l : String) (rest : List ReadEvent)
  /-- The read returned an empty chunk (EOF) and the loop broke via
  `if not chunk: break` with `response_line` never assigned. -/
  | eofBreak (rest : List ReadEvent)
  /-- `asyncio.TimeoutError` was raised by `asyncio.wait_for`. -/
  | timeout (rest : List ReadEvent)
  /-- The modelled event list ran out: the coroutine would still be awaiting
  the next chunk. -/
  | exhausted
deriving DecidableEq

/-- The accumulation loop of `_send_request` (lines 312-332): read chunks into
`response_data` until it contains a newline, then take
`response_data[:response_data.index(b'\n')]`; break with nothing assigned on
an empty read (EOF). -/
def readLoop : List Char → List ReadEvent → ReadOutcome
  | _, [] => .exhausted
  | _, .timeoutEv :: rest => .timeout rest
  | acc, .chunk s :: rest =>
    match s.data with
    | [] => .eofBreak rest
    | c :: cs =>
      let acc2 := acc ++ c :: cs
      if acc2.contains '\n' then
        .line (String.mk (acc2.takeWhile (fun ch => ch ≠ '\n'))) rest
      else
        readLoop acc2 rest

/-- Result of `_send_request`: the parsed response or the raised exception,
together with the transport data left for later reads on the connection. -/
structure SendOutcome where
  result : Except PyError JValue
  rest : List ReadEvent

/-- Receive half of `MCPClientBridge._send_request` (lines 311-341): run the
read loop, then `if not response_line: raise Exception(f"No response from
{server}")` — on the EOF path `response_line` was never assigned, so that
very guard raises `UnboundLocalError` — and finally
`json.loads(response_line.decode())`. -/
def send_request_recv (server : String) (events : List ReadEvent) : SendOutcome :=
  match readLoop [] events with
  | .timeout rest => ⟨.error (.exc ("Timeout reading response from " ++ server)), rest⟩
  | .eofBreak rest => ⟨.error (.unboundLocal "response_line"), rest⟩
  | .exhausted => ⟨.error .pending, []⟩
  | .line l rest =>
    if l = "" then ⟨.error (.exc ("No response from " ++ server)), rest⟩
    else
      match jsonLoads l with
      | none => ⟨.error (.jsonDecodeError l), rest⟩
      | some v => ⟨.ok v, rest⟩

/-- State of an `MCPClientBridge` instance (`__init__`, lines 133-136): the
keys of `self.processes`, the single shared `self.request_counter`, and the
`self.initialized` flag (named `inited` here). -/
structure Bridge where
  processes : List String
  request_counter : Nat
  inited : Bool
deriving DecidableEq

/-- Registry update `self.processes[server_name] = process`: dict keys stay
unique, insertion order preserved. -/
def registryAdd (ps : List String) (name : String) : List String :=
  if ps.contains name then ps else ps ++ [name]

/-- Request built by `call_tool` (lines 241-249). -/
def tool_call_request (rid : Nat) (tool : String) (args : JValue) : JValue :=
  .obj [("jsonrpc", .str "2.0"), ("id", .num rid), ("method", .str "tools/call"),
    ("params", .obj [("name", .str tool), ("arguments", args)])]

/-- Request built by `list_tools` (lines 288-293). -/
def tools_list_request (rid : Nat) : JValue :=
  .obj [("jsonrpc", .str "2.0"), ("id", .num rid), ("method", .str "tools/list"),
    ("params", .obj [])]

/-- Request built by `_initialize_mcp_connection` (lines 175-187). -/
def init_request (rid : Nat) : JValue :=
  .obj [("jsonrpc", .str "2.0"), ("id", .num rid), ("method", .str "initialize"),
    ("params", .obj [("protocolVersion", .str "2024-11-05"),
      ("capabilities", .obj []),
      ("clientInfo", .obj [("name", .str "autogen-mcp-bridge"),
        ("version", .str "1.0.0")])])]

/-- Unwrapping of a successful result by `call_tool` (lines 259-266): if the
result is a non-empty list whose first element is a dict with a `"text"` key,
return `result[0]["text"]`, otherwise return the result unchanged. -/
def extractText (result : JValue) : JValue :=
  match result with
  | .arr (first :: _) =>
    match first with
    | .obj fields =>
      (match dictLookup fields "text" with
       | some t => t
       | none => result)
    | _ => result
  | _ => result

/-- Handling of a parsed response by `call_tool` (lines 254-266): raise on an
`"error"` key, else `response.get("result", [])` and unwrap text content.
The response id is never consulted. -/
def handleToolResponse (response : JValue) : Except PyError JValue :=
  match pyIn "error" response with
  | .error e => .error e
  | .ok true =>
    (match pyIndex response "error" with
     | .error e => .error e
     | .ok payload => .error (.excMCP payload))
  | .ok false =>
    match pyGetD response "result" (.arr []) with
    | .error e => .error e
    | .ok result => .ok (extractText result)

/-- Handling of a parsed response by `list_tools` (lines 297-300): raise on an
`"error"` key, else `response.get("result", {}).get("tools", [])`. -/
def handleListToolsResponse (response : JValue) : Except PyError JValue :=
  match pyIn "error" response with
  | .error e => .error e
  | .ok true =>
    (match pyIndex response "error" with
     | .error e => .error e
     | .ok payload => .error (.excListTools payload))
  | .ok false =>
    match pyGetD response "result" (.obj []) with
    | .error e => .error e
    | .ok r =>
      match pyGetD r "tools" (.arr []) with
      | .error e => .error e
      | .ok ts => .ok ts

/-- Handling of a parsed response by `_initialize_mcp_connection` (lines
190-192): raise `Exception(f"Initialization failed: ...")` on an `"error"`
key, succeed otherwise. -/
def handleInitResponse (response : JValue) : Except PyError Unit :=
  match pyIn "error" response with
  | .error e => .error e
  | .ok true =>
    (match pyIndex response "error" with
     | .error e => .error e
     | .ok payload => .error (.excInit payload))
  | .ok false => .ok ()

/-- Observable result of one `call_tool` / `list_tools` coroutine: the value
returned or exception raised, the bridge state afterwards, the request line
written to the child's stdin (`none` if the guards raised before sending),
and the transport data left unconsumed. -/
structure CallResult where
  result : Except PyError JValue
  bridge : Bridge
  sent : Option JValue
  rest : List ReadEvent

/-- `MCPClientBridge.call_tool` (lines 212-270).  `events` is what the
connection's stdout delivers during this call.  Note that the guards test the
bridge-wide `initialized` flag and registry, that `_gen_request_id` (lines
343-346) increments the shared counter before the request is sent, and that
an exception from `_send_request` or from the error branch propagates (the
`except` clause logs and re-raises) with the incremented counter kept and the
registry untouched. -/
def call_tool (b : Bridge) (server tool : String) (args : JValue)
    (events : List ReadEvent) : CallResult :=
  if b.inited = false then
    ⟨.error (.valueError "MCP bridge not initialized. Call start_servers() first."),
      b, none, events⟩
  else if b.processes.contains server = false then
    ⟨.error (.valueError ("Unknown server: " ++ server)), b, none, events⟩
  else
    let rid := b.request_counter + 1
    let b2 : Bridge := { b with request_counter := rid }
    let req := tool_call_request rid tool args
    let so := send_request_recv server events
    ⟨so.result.bind handleToolResponse, b2, some req, so.rest⟩

/-- `MCPClientBridge.list_tools` (lines 272-300). -/
def list_tools (b : Bridge) (server : String) (events : List ReadEvent) :
    CallResult :=
  if b.inited = false then
    ⟨.error (.valueError "MCP bridge not initialized"), b, none, events⟩
  else if b.processes.contains server = false then
    ⟨.error (.valueError ("Unknown server: " ++ server)), b, none, events⟩
  else
    let rid := b.request_counter + 1
    let b2 : Bridge := { b with request_counter := rid }
    let req := tools_list_request rid
    let so := send_request_recv server events
    ⟨so.result.bind handleListToolsResponse, b2, some req, so.rest⟩

/-- `MCPClientBridge._start_server` plus `_initialize_mcp_connection` (lines
153-210): register the process under its name (before the handshake), send
the `initialize` request (consuming one id from the shared counter), validate
the response, then write the `notifications/initialized` line — a
notification with no `id` field, consuming no id. -/
def start_server (b : Bridge) (name : String) (events : List ReadEvent) :
    (Except PyError Unit) × Bridge :=
  let b1 : Bridge := { b with processes := registryAdd b.processes name }
  let rid := b1.request_counter + 1
  let b2 : Bridge := { b1 with request_counter := rid }
  ((send_request_recv name events).result.bind handleInitResponse, b2)

/-- `MCPClientBridge.start_servers` (lines 138-151): start each configured
server in order; the `except` clause logs and re-raises, so the first failure
aborts the whole operation with that server's own exception and
`self.initialized` is only set once every server started. -/
def start_servers (b : Bridge) (configs : List (String × List ReadEvent)) :
    (Except PyError Unit) × Bridge :=
  match configs with
  | [] => (.ok (), { b with inited := true })
  | (name, events) :: rest =>
    match start_server b name events with
    | (.ok _, b2) => start_servers b2 rest
    | (.error e, b2) => (.error e, b2)

/-- Environment oracle for teardown: closing/terminating the process of the
named connection raises iff the name is in `failing`. -/
def terminate_process (name : String) (failing : List String) :
    Except PyError Unit :=
  if failing.contains name then .error (.exc ("Error closing " ++ name)) else .ok ()

/-- Loop body of `MCPClientBridge.shutdown` (lines 352-374): each iteration's
`try`/`except Exception` absorbs the per-connection failure and logs it, so
the loop itself never raises; the returned list is what got logged. -/
def shutdownLoop (names failing : List String) : List String :=
  match names with
  | [] => []
  | n :: rest =>
    (match terminate_process n failing with
     | .error _ => [n]
     | .ok _ => []) ++ shutdownLoop rest failing

/-- `MCPClientBridge.shutdown` (lines 348-377): best-effort terminate of every
registered process with all individual failures caught and logged, then
`self.processes.clear()` and `self.initialized = False`.  Total by
construction, mirroring the blanket `except` around each iteration. -/
def shutdown (b : Bridge) (failing : List String) : Bridge × List String :=
  (⟨[], b.request_counter, false⟩, shutdownLoop b.processes failing)

/-- Bridge with one ready connection `"a"`, fresh counter. -/
def readyBridge : Bridge := ⟨["a"], 0, true⟩

/-- Child responds with MCP text content `[{"type":"text","text":"hello"}]`. -/
def helloEvents : List ReadEvent :=
  [.chunk "\x7b\"jsonrpc\":\"2.0\",\"id\":1,\"result\":[\x7b\"type\":\"text\",\"text\":\"hello\"\x7d]\x7d\n"]

/-- Child responds with id 999 — never the id of any request the one-server
bridge just sent. -/
def mismatchEvents : List ReadEvent :=
  [.chunk "\x7b\"jsonrpc\":\"2.0\",\"id\":999,\"result\":\"ok\"\x7d\n"]

/-- Parsed form of the line in `mismatchEvents`. -/
def mismatchResponse : JValue :=
  .obj [("jsonrpc", .str "2.0"), ("id", .num 999), ("result", .str "ok")]

/-- Child responds with an envelope carrying neither `result` nor `error`. -/
def bareEvents : List ReadEvent :=
  [.chunk "\x7b\"jsonrpc\":\"2.0\",\"id\":1\x7d\n"]

/-- Child responds to `tools/list` with one declared tool. -/
def toolsEvents : List ReadEvent :=
  [.chunk "\x7b\"jsonrpc\":\"2.0\",\"id\":1,\"result\":\x7b\"tools\":[\x7b\"name\":\"t1\"\x7d]\x7d\x7d\n"]

/-- Child answers the `initialize` request with an empty-capabilities result. -/
def okInitEvents : List ReadEvent :=
  [.chunk "\x7b\"jsonrpc\":\"2.0\",\"id\":1,\"result\":\x7b\x7d\x7d\n"]

/-- Receiving when the single read times out yields the timeout exception,
whose message names the server and nothing else. -/
theorem send_request_recv_timeout (server : String) :
    send_request_recv server [ReadEvent.timeoutEv]
      = ⟨.error (.exc ("Timeout reading response from " ++ server)), []⟩ := rfl

/-- Receiving the line `not json` yields the JSON decode error, for every
server name. -/
theorem send_request_recv_notjson (server : String) :
    send_request_recv server [ReadEvent.chunk "not json\n"]
      = ⟨.error (.jsonDecodeError "not json"), []⟩ := rfl

/-- Unfolding of `call_tool` past its two guards on a ready connection. -/
theorem call_tool_ready (b : Bridge) (server tool : String) (args : JValue)
    (events : List ReadEvent) (hi : b.inited = true)
    (hp : b.processes.contains server = true) :
    call_tool b server tool args events =
      ⟨(send_request_recv server events).result.bind handleToolResponse,
        { b with request_counter := b.request_counter + 1 },
        some (tool_call_request (b.request_counter + 1) tool args),
        (send_request_recv server events).rest⟩ := by
  have hp2 : server ∈ b.processes := by simpa using hp
  simp [call_tool, hi, hp2]

/-- Registration in `_start_server` happens before the handshake, so the
started name is in the registry whatever the handshake's outcome. -/
theorem start_server_processes (b : Bridge) (name : String)
    (events : List ReadEvent) :
    (start_server b name events).2.processes = registryAdd b.processes name := rfl

/-- Starting a single server never touches the bridge-ready flag. -/
theorem start_server_inited (b : Bridge) (name : String)
    (events : List ReadEvent) :
    (start_server b name events).2.inited = b.inited := rfl

/-- Starting a single server increments the shared counter exactly once (for
the `initialize` request; the `initialized` notification consumes no id). -/
theorem start_server_counter (b : Bridge) (name : String)
    (events : List ReadEvent) :
    (start_server b name events).2.request_counter = b.request_counter + 1 := rfl

/-- What `shutdown` logs is exactly the registered connections whose teardown
failed. -/
theorem shutdownLoop_eq_filter (names failing : List String) :
    shutdownLoop names failing = names.filter (fun n => failing.contains n) := by
  induction names with
  | nil => rfl
  | cons n rest ih =>
    by_cases h : n ∈ failing
    · simp [shutdownLoop, terminate_process, ih, h]
    · simp [shutdownLoop, terminate_process, ih, h]

/-- List helper: `takeWhile` stops exactly at the first failing element. -/
theorem takeWhile_append_stop (p : Char → Bool) (pre post : List Char) (c : Char)
    (hpre : ∀ x ∈ pre, p x = true) (hc : p c = false) :
    (pre ++ c :: post).takeWhile p = pre := by
  induction pre with
  | nil => simp [List.takeWhile, hc]
  | cons a as ih =>
    have ha : p a = true := hpre a (List.mem_cons_self a as)
    simp only [List.cons_append, List.takeWhile, ha]
    exact congrArg (a :: ·) (ih (fun x hx => hpre x (List.mem_cons_of_mem a hx)))

/-- List helper: a list containing `c` reports `contains c = true`. -/
theorem contains_append_cons (pre post : List Char) (c : Char) :
    (pre ++ c :: post).contains c = true := by
  simp

/-- C1, counterexample.  The claim says a response whose id differs from the
id just sent is rejected and the connection closed.  Concretely: the bridge
sends the `tools/call` request with id 1, the child answers with id 999, and
`call_tool` returns that response's result as a plain success while the
connection stays registered and ready — nothing is rejected or closed. -/
theorem C1_counterexample :
    (call_tool readyBridge "a" "t" (JValue.obj []) mismatchEvents).result
        = Except.ok (JValue.str "ok")
    ∧ (call_tool readyBridge "a" "t" (JValue.obj []) mismatchEvents).sent
        = some (tool_call_request 1 "t" (JValue.obj []))
    ∧ pyIndex (tool_call_request 1 "t" (JValue.obj [])) "id" = Except.ok (JValue.num 1)
    ∧ (send_request_recv "a" mismatchEvents).result = Except.ok mismatchResponse
    ∧ pyIndex mismatchResponse "id" = Except.ok (JValue.num 999)
    ∧ (999 : Int) ≠ 1
    ∧ (call_tool readyBridge "a" "t" (JValue.obj []) mismatchEvents).bridge
        = ⟨["a"], 1, true⟩ :=
  ⟨rfl, rfl, rfl, rfl, rfl, by decide, rfl⟩

/-- C1, amended.  After sending a request with id N, the bridge performs no
check at all on the id of the response line it reads: `call_tool` handles a
parsed response identically whatever its `id` field holds (first conjunct),
and in particular a response with mismatching id 999 is returned as a
successful result with the connection left registered and ready (remaining
conjuncts); no protocol-violation path closes the connection. -/
theorem C1_amended (x y : JValue) (rest : List (String × JValue)) :
    handleToolResponse (JValue.obj (("id", x) :: rest))
        = handleToolResponse (JValue.obj (("id", y) :: rest))
    ∧ (call_tool readyBridge "a" "t" (JValue.obj []) mismatchEvents).result
        = Except.ok (JValue.str "ok")
    ∧ (call_tool readyBridge "a" "t" (JValue.obj []) mismatchEvents).bridge.processes
        = ["a"]
    ∧ (call_tool readyBridge "a" "t" (JValue.obj []) mismatchEvents).bridge.inited
        = true := by
  refine ⟨?_, rfl, rfl, rfl⟩
  simp [handleToolResponse, pyIn, pyIndex, pyGetD, dictContains, dictLookup]

/-- C2, counterexample.  The claim says a read returns the bytes up to and
including the first newline and retains the overflow for the next read.
Concretely: one chunk `"a\nb\n"` yields the line `"a"` — the newline itself
is not included — with no events left, so the trailing bytes `"b\n"` are in
neither the returned line nor the remaining transport data; at the send
level, a chunk carrying two complete responses yields the first response
with nothing retained, and the next read on the connection finds the stream
empty instead of the second response. -/
theorem C2_counterexample :
    readLoop [] [ReadEvent.chunk "a\nb\n"] = ReadOutcome.line "a" []
    ∧ "a" ≠ "a\n"
    ∧ send_request_recv "s" [ReadEvent.chunk "\"r1\"\n\"r2\"\n"]
        = ⟨Except.ok (JValue.str "r1"), []⟩
    ∧ send_request_recv "s" [] = ⟨Except.error PyError.pending, []⟩ :=
  ⟨rfl, by decide, rfl, rfl⟩

/-- C2, amended.  When a single chunked read delivers bytes beyond the first
newline, the loop returns only the bytes strictly before that newline
(excluding it), and every byte past the newline boundary from that same read
is discarded: the loop resumes from the following transport events, with
nothing retained or prepended. -/
theorem C2_amended (pre post : List Char) (evs : List ReadEvent)
    (h : pre.contains '\n' = false) :
    readLoop [] (ReadEvent.chunk (String.mk (pre ++ '\n' :: post)) :: evs)
      = ReadOutcome.line (String.mk pre) evs := by
  have hnm : '\n' ∉ pre := by simpa using h
  have hpre : ∀ x ∈ pre, (decide (x ≠ '\n')) = true := by
    intro x hx
    simp only [decide_eq_true_eq]
    intro hxeq
    exact hnm (hxeq ▸ hx)
  cases pre with
  | nil =>
    simp [readLoop]
  | cons p ps =>
    have hcont : ((p :: ps) ++ '\n' :: post).contains '\n' = true :=
      contains_append_cons (p :: ps) post '\n'
    have htake :
        List.takeWhile (fun ch => !decide (ch = '\n')) (p :: (ps ++ '\n' :: post))
          = p :: ps := by
      have h2 := takeWhile_append_stop (fun ch => !decide (ch = '\n'))
        (p :: ps) post '\n' (fun x hx => by simpa using hpre x hx) (by simp)
      simpa using h2
    simp [readLoop, hcont, htake]

/-- C2, witness for the amended theorem at the chunk `"a\nb"`. -/
theorem C2_witness :
    readLoop [] [ReadEvent.chunk (String.mk (['a'] ++ '\n' :: ['b']))]
      = ReadOutcome.line (String.mk ['a']) [] :=
  C2_amended ['a'] ['b'] [] (by decide)

/-- C3, counterexample.  The claim says the ids on a single connection
increase by exactly one per call regardless of interleaved requests on other
connections.  Concretely: on a bridge with ready connections `"a"` and
`"b"`, calling `a`, then `b`, then `a` sends ids 1, 2, 3 — the second call
on connection `"a"` carries id 3, not 2, because the id consumed by the
interleaved call on `"b"` came from the same shared counter. -/
theorem C3_counterexample :
    (call_tool ⟨["a", "b"], 0, true⟩ "a" "t" (JValue.obj []) helloEvents).sent
        = some (tool_call_request 1 "t" (JValue.obj []))
    ∧ (call_tool (call_tool ⟨["a", "b"], 0, true⟩ "a" "t" (JValue.obj [])
          helloEvents).bridge "b" "t" (JValue.obj []) helloEvents).sent
        = some (tool_call_request 2 "t" (JValue.obj []))
    ∧ (call_tool (call_tool (call_tool ⟨["a", "b"], 0, true⟩ "a" "t"
          (JValue.obj []) helloEvents).bridge "b" "t" (JValue.obj [])
          helloEvents).bridge "a" "t" (JValue.obj []) helloEvents).sent
        = some (tool_call_request 3 "t" (JValue.obj []))
    ∧ (3 : Nat) ≠ 1 + 1 :=
  ⟨rfl, rfl, rfl, by decide⟩

/-- C3, amended.  The request-id counter is a single bridge-wide counter, not
scoped per connection: every `call_tool` on a ready connection sends id
`request_counter + 1` and stores the incremented counter back on the bridge,
whichever connection it addresses (so interleaved calls on other connections
of the same bridge do consume ids in between); the handshake of each
`start_server` consumes exactly one id for its `initialize` request, and the
`initialized` notification consumes none. -/
theorem C3_amended (b : Bridge) (server tool name : String) (args : JValue)
    (events events2 : List ReadEvent) (hi : b.inited = true)
    (hp : b.processes.contains server = true) :
    (call_tool b server tool args events).sent
        = some (tool_call_request (b.request_counter + 1) tool args)
    ∧ (call_tool b server tool args events).bridge.request_counter
        = b.request_counter + 1
    ∧ (start_server b name events2).2.request_counter = b.request_counter + 1 := by
  rw [call_tool_ready b server tool args events hi hp]
  exact ⟨rfl, rfl, start_server_counter b name events2⟩

/-- C3, witness for the amended theorem on the ready one-server bridge. -/
theorem C3_witness :
    (call_tool readyBridge "a" "t" (JValue.obj []) helloEvents).sent
        = some (tool_call_request (readyBridge.request_counter + 1) "t"
            (JValue.obj []))
    ∧ (call_tool readyBridge "a" "t" (JValue.obj []) helloEvents).bridge.request_counter
        = readyBridge.request_counter + 1
    ∧ (start_server readyBridge "b" okInitEvents).2.request_counter
        = readyBridge.request_counter + 1 :=
  C3_amended readyBridge "a" "t" "b" (JValue.obj []) helloEvents okInitEvents
    rfl rfl

/-- C4.  The claim — a child that reaches end-of-file without writing a
complete response line makes the pending `call_tool` fail with a
premature-EOF-kind error — matches the intent visible in the code
(`if not response_line: raise Exception(f"No response from {server}")`), but
on the EOF path the `while` loop breaks via `if not chunk: break` before
`response_line` is ever assigned, so that very guard raises
`UnboundLocalError` instead: an unrelated failure.  Both with an immediate
EOF and with a partial line followed by EOF, `call_tool` fails with
`UnboundLocalError` on `response_line`, not with the premature-EOF error. -/
theorem C4_eof_unbound_local :
    (call_tool readyBridge "a" "t" (JValue.obj []) [ReadEvent.chunk ""]).result
        = Except.error (PyError.unboundLocal "response_line")
    ∧ (call_tool readyBridge "a" "t" (JValue.obj [])
          [ReadEvent.chunk "par", ReadEvent.chunk ""]).result
        = Except.error (PyError.unboundLocal "response_line") :=
  ⟨rfl, rfl⟩

/-- C5.  For every successful `call_tool` response whose result is a
non-empty list whose first element is a dict with a `"text"` key, the call
returns exactly that text value (first conjunct); on any other successful
result it returns the result unchanged (second conjunct); for every
successful `tools/list` response whose result holds a `"tools"` entry,
`list_tools` returns exactly that entry (third conjunct); and concretely
`result = [{"type":"text","text":"hello"}]` yields the string `"hello"`
while the `tools` array of a `tools/list` response comes back as is (last
two conjuncts). -/
theorem C5_result_unwrapping
    (respFields fields resultFields : List (String × JValue))
    (t r tv : JValue) (restItems : List JValue)
    (resp2Fields resp3Fields : List (String × JValue))
    (h1 : dictContains respFields "error" = false)
    (h2 : dictLookup respFields "result"
        = some (JValue.arr (JValue.obj fields :: restItems)))
    (h3 : dictLookup fields "text" = some t)
    (h4 : dictContains resp2Fields "error" = false)
    (h5 : dictLookup resp2Fields "result" = some r)
    (h6 : ∀ fs rs, r = JValue.arr (JValue.obj fs :: rs) →
        dictLookup fs "text" = none)
    (h7 : dictContains resp3Fields "error" = false)
    (h8 : dictLookup resp3Fields "result" = some (JValue.obj resultFields))
    (h9 : dictLookup resultFields "tools" = some tv) :
    handleToolResponse (JValue.obj respFields) = Except.ok t
    ∧ handleToolResponse (JValue.obj resp2Fields) = Except.ok r
    ∧ handleListToolsResponse (JValue.obj resp3Fields) = Except.ok tv
    ∧ (call_tool readyBridge "a" "echo" (JValue.obj []) helloEvents).result
        = Except.ok (JValue.str "hello")
    ∧ (list_tools readyBridge "a" toolsEvents).result
        = Except.ok (JValue.arr [JValue.obj [("name", JValue.str "t1")]]) := by
  refine ⟨?_, ?_, ?_, rfl, rfl⟩
  · simp [handleToolResponse, pyIn, h1, pyGetD, h2, extractText, h3]
  · have hex : extractText r = r := by
      cases r with
      | arr items =>
        cases items with
        | nil => rfl
        | cons first rest2 =>
          cases first with
          | obj fs =>
            have hnone : dictLookup fs "text" = none := h6 fs rest2 rfl
            simp [extractText, hnone]
          | null => rfl
          | bool b2 => rfl
          | num n2 => rfl
          | str s2 => rfl
          | arr a2 => rfl
      | obj o => rfl
      | null => rfl
      | bool b2 => rfl
      | num n2 => rfl
      | str s2 => rfl
    simp [handleToolResponse, pyIn, h4, pyGetD, h5, hex]
  · simp [handleListToolsResponse, pyIn, h7, pyGetD, h8, h9]

/-- C5, witness: the text-content case, the pass-through case on a plain
string result, and the `tools` case, instantiated at concrete envelopes. -/
theorem C5_witness :
    handleToolResponse (JValue.obj [("id", JValue.num 1),
        ("result", JValue.arr [JValue.obj [("type", JValue.str "text"),
          ("text", JValue.str "hello")]])])
      = Except.ok (JValue.str "hello")
    ∧ handleToolResponse (JValue.obj [("id", JValue.num 1),
        ("result", JValue.str "raw")]) = Except.ok (JValue.str "raw")
    ∧ handleListToolsResponse (JValue.obj [("id", JValue.num 1),
        ("result", JValue.obj [("tools", JValue.arr [JValue.str "x"])])])
      = Except.ok (JValue.arr [JValue.str "x"])
    ∧ (call_tool readyBridge "a" "echo" (JValue.obj []) helloEvents).result
        = Except.ok (JValue.str "hello")
    ∧ (list_tools readyBridge "a" toolsEvents).result
        = Except.ok (JValue.arr [JValue.obj [("name", JValue.str "t1")]]) :=
  C5_result_unwrapping
    [("id", JValue.num 1), ("result", JValue.arr [JValue.obj
      [("type", JValue.str "text"), ("text", JValue.str "hello")]])]
    [("type", JValue.str "text"), ("text", JValue.str "hello")]
    [("tools", JValue.arr [JValue.str "x"])]
    (JValue.str "hello") (JValue.str "raw") (JValue.arr [JValue.str "x"]) []
    [("id", JValue.num 1), ("result", JValue.str "raw")]
    [("id", JValue.num 1), ("result", JValue.obj [("tools",
      JValue.arr [JValue.str "x"])])]
    rfl rfl rfl rfl rfl (fun _ _ h => JValue.noConfusion h) rfl rfl rfl

/-- C6, counterexample.  The claim says a failed `start_all` reports a
`PartialStartupFailure` identifying which connections succeeded and which
failed.  Concretely: starting `[a (succeeds), b (times out)]` and starting
`[b (times out)]` alone raise the very same exception — the failing server's
own timeout error — although the set of connections that had succeeded
differs (`a` in the first run, none in the second), so the raised error
identifies neither set; the successful connection stays in the registry. -/
theorem C6_counterexample :
    (start_servers ⟨[], 0, false⟩
        [("a", okInitEvents), ("b", [ReadEvent.timeoutEv])]).1
      = (start_servers ⟨[], 0, false⟩ [("b", [ReadEvent.timeoutEv])]).1
    ∧ (start_servers ⟨[], 0, false⟩
        [("a", okInitEvents), ("b", [ReadEvent.timeoutEv])]).1
      = Except.error (PyError.exc "Timeout reading response from b")
    ∧ (start_servers ⟨[], 0, false⟩
        [("a", okInitEvents), ("b", [ReadEvent.timeoutEv])]).2.processes
      = ["a", "b"]
    ∧ (start_servers ⟨[], 0, false⟩ [("b", [ReadEvent.timeoutEv])]).2.processes
      = ["b"] :=
  ⟨rfl, rfl, rfl, rfl⟩

/-- C6, amended.  If a connection's startup fails during `start_servers`, the
operation fails as a whole with that failing connection's own exception (not
a `PartialStartupFailure` naming the succeeded and failed sets), every
connection that succeeded before the failure is left running in the registry
(as is the failed connection's process, registered before its handshake),
and the bridge is not marked ready. -/
theorem C6_amended (b : Bridge) (nameA nameB : String)
    (evA evB : List ReadEvent) (e : PyError)
    (hA : (start_server b nameA evA).1 = Except.ok ())
    (hB : (start_server (start_server b nameA evA).2 nameB evB).1
        = Except.error e) :
    (start_servers b [(nameA, evA), (nameB, evB)]).1 = Except.error e
    ∧ (start_servers b [(nameA, evA), (nameB, evB)]).2.processes
        = registryAdd (registryAdd b.processes nameA) nameB
    ∧ (start_servers b [(nameA, evA), (nameB, evB)]).2.inited = b.inited := by
  rcases hp : start_server b nameA evA with ⟨r1, b1⟩
  rw [hp] at hA hB
  simp only at hA hB
  subst hA
  rcases hq : start_server b1 nameB evB with ⟨r2, b2⟩
  rw [hq] at hB
  simp only at hB
  subst hB
  have hps1 : b1.processes = registryAdd b.processes nameA := by
    have h := start_server_processes b nameA evA
    rw [hp] at h
    exact h
  have hps2 : b2.processes = registryAdd b1.processes nameB := by
    have h := start_server_processes b1 nameB evB
    rw [hq] at h
    exact h
  have hin1 : b1.inited = b.inited := by
    have h := start_server_inited b nameA evA
    rw [hp] at h
    exact h
  have hin2 : b2.inited = b1.inited := by
    have h := start_server_inited b1 nameB evB
    rw [hq] at h
    exact h
  have hrun : start_servers b [(nameA, evA), (nameB, evB)]
      = (Except.error e, b2) := by
    simp [start_servers, hp, hq]
  rw [hrun]
  exact ⟨rfl, by rw [hps2, hps1], by rw [hin2, hin1]⟩

/-- C6, witness for the amended theorem at the `[a succeeds, b times out]`
configuration. -/
theorem C6_witness :
    (start_servers ⟨[], 0, false⟩
        [("a", okInitEvents), ("b", [ReadEvent.timeoutEv])]).1
      = Except.error (PyError.exc "Timeout reading response from b")
    ∧ (start_servers ⟨[], 0, false⟩
        [("a", okInitEvents), ("b", [ReadEvent.timeoutEv])]).2.processes
      = registryAdd (registryAdd (⟨[], 0, false⟩ : Bridge).processes "a") "b"
    ∧ (start_servers ⟨[], 0, false⟩
        [("a", okInitEvents), ("b", [ReadEvent.timeoutEv])]).2.inited
      = (⟨[], 0, false⟩ : Bridge).inited :=
  C6_amended ⟨[], 0, false⟩ "a" "b" okInitEvents [ReadEvent.timeoutEv]
    (PyError.exc "Timeout reading response from b") rfl rfl

/-- C7, counterexample.  The claim says that after a malformed (non-JSON)
response line the connection is marked unusable and subsequent calls fail.
Concretely: `call_tool` does fail with the decode error on `not json\n`, but
the bridge state afterwards still lists the connection and is still marked
ready, and a subsequent `call_tool` on the very same connection succeeds
normally. -/
theorem C7_counterexample :
    (call_tool readyBridge "a" "t" (JValue.obj [])
        [ReadEvent.chunk "not json\n"]).result
      = Except.error (PyError.jsonDecodeError "not json")
    ∧ (call_tool readyBridge "a" "t" (JValue.obj [])
        [ReadEvent.chunk "not json\n"]).bridge = ⟨["a"], 1, true⟩
    ∧ (call_tool (call_tool readyBridge "a" "t" (JValue.obj [])
        [ReadEvent.chunk "not json\n"]).bridge "a" "t" (JValue.obj [])
        helloEvents).result = Except.ok (JValue.str "hello") :=
  ⟨rfl, rfl, rfl⟩

/-- C7, amended.  When the child answers a request with the line `not json`,
`call_tool` fails with a decode-kind error, but the connection is not marked
unusable in any way: the registry and the ready flag are unchanged, so
subsequent calls on that connection proceed as if it were still ready. -/
theorem C7_amended (b : Bridge) (server tool : String) (args : JValue)
    (hi : b.inited = true) (hp : b.processes.contains server = true) :
    (call_tool b server tool args [ReadEvent.chunk "not json\n"]).result
        = Except.error (PyError.jsonDecodeError "not json")
    ∧ (call_tool b server tool args [ReadEvent.chunk "not json\n"]).bridge.processes
        = b.processes
    ∧ (call_tool b server tool args [ReadEvent.chunk "not json\n"]).bridge.inited
        = true := by
  rw [call_tool_ready b server tool args _ hi hp,
    send_request_recv_notjson server]
  exact ⟨rfl, rfl, hi⟩

/-- C7, witness for the amended theorem on the ready one-server bridge. -/
theorem C7_witness :
    (call_tool readyBridge "a" "t" (JValue.obj [])
        [ReadEvent.chunk "not json\n"]).result
      = Except.error (PyError.jsonDecodeError "not json")
    ∧ (call_tool readyBridge "a" "t" (JValue.obj [])
        [ReadEvent.chunk "not json\n"]).bridge.processes = readyBridge.processes
    ∧ (call_tool readyBridge "a" "t" (JValue.obj [])
        [ReadEvent.chunk "not json\n"]).bridge.inited = true :=
  C7_amended readyBridge "a" "t" (JValue.obj []) rfl rfl

/-- C8, counterexample.  The claim says the timeout error names the
connection and the outstanding request id.  Concretely: two bridges whose
outstanding request ids differ (1 versus 42) produce the very same timeout
exception value, so the raised error cannot be naming the outstanding
request id. -/
theorem C8_counterexample :
    (call_tool ⟨["a"], 0, true⟩ "a" "t" (JValue.obj [])
        [ReadEvent.timeoutEv]).result
      = (call_tool ⟨["a"], 41, true⟩ "a" "t" (JValue.obj [])
        [ReadEvent.timeoutEv]).result
    ∧ (call_tool ⟨["a"], 0, true⟩ "a" "t" (JValue.obj [])
        [ReadEvent.timeoutEv]).sent
      = some (tool_call_request 1 "t" (JValue.obj []))
    ∧ (call_tool ⟨["a"], 41, true⟩ "a" "t" (JValue.obj [])
        [ReadEvent.timeoutEv]).sent
      = some (tool_call_request 42 "t" (JValue.obj []))
    ∧ (1 : Nat) ≠ 42 :=
  ⟨rfl, rfl, rfl, by decide⟩

/-- C8, amended.  When no complete response line arrives within the timeout,
`call_tool` fails with a timeout-kind error naming the connection (but not
the outstanding request id), and the connection's state is otherwise
unchanged: it stays registered and the bridge stays ready, so the caller may
retry or explicitly close it — a single timeout never tears the connection
down; only the shared counter keeps the id the request consumed. -/
theorem C8_amended (b : Bridge) (server tool : String) (args : JValue)
    (hi : b.inited = true) (hp : b.processes.contains server = true) :
    (call_tool b server tool args [ReadEvent.timeoutEv]).result
        = Except.error (PyError.exc ("Timeout reading response from " ++ server))
    ∧ (call_tool b server tool args [ReadEvent.timeoutEv]).bridge.processes
        = b.processes
    ∧ (call_tool b server tool args [ReadEvent.timeoutEv]).bridge.inited = true
    ∧ (call_tool b server tool args [ReadEvent.timeoutEv]).bridge.request_counter
        = b.request_counter + 1 := by
  rw [call_tool_ready b server tool args _ hi hp, send_request_recv_timeout server]
  exact ⟨rfl, rfl, hi, rfl⟩

/-- C8, witness for the amended theorem on the ready one-server bridge. -/
theorem C8_witness :
    (call_tool readyBridge "a" "t" (JValue.obj []) [ReadEvent.timeoutEv]).result
      = Except.error (PyError.exc ("Timeout reading response from " ++ "a"))
    ∧ (call_tool readyBridge "a" "t" (JValue.obj [])
        [ReadEvent.timeoutEv]).bridge.processes = readyBridge.processes
    ∧ (call_tool readyBridge "a" "t" (JValue.obj [])
        [ReadEvent.timeoutEv]).bridge.inited = true
    ∧ (call_tool readyBridge "a" "t" (JValue.obj [])
        [ReadEvent.timeoutEv]).bridge.request_counter
      = readyBridge.request_counter + 1 :=
  C8_amended readyBridge "a" "t" (JValue.obj []) rfl rfl

/-- C9.  `shutdown` is idempotent and total: it is a total function (the
per-connection `try`/`except` of the source absorbs every individual
termination failure, which is returned in the log component instead of
raised), the connection registry is empty after each call, the logged
teardown failures are exactly the registered connections whose termination
failed, the bridge is marked torn down (not ready), and running `shutdown`
again on the result changes nothing and logs nothing. -/
theorem C9_shutdown_idempotent (b : Bridge) (failing : List String) :
    (shutdown b failing).1.processes = []
    ∧ (shutdown b failing).1.inited = false
    ∧ (shutdown b failing).2 = b.processes.filter (fun n => failing.contains n)
    ∧ shutdown (shutdown b failing).1 failing = ((shutdown b failing).1, []) :=
  ⟨rfl, rfl, shutdownLoop_eq_filter b.processes failing, rfl⟩

/-- C10.  A `call_tool` whose response contains neither an `"error"` key nor
a `"result"` key succeeds and returns the empty list, the default that
`response.get("result", [])` substitutes: generally on any such envelope
(first conjunct) and concretely for the envelope
`{"jsonrpc":"2.0","id":1}` (second conjunct). -/
theorem C10_missing_result_default (respFields : List (String × JValue))
    (h1 : dictContains respFields "error" = false)
    (h2 : dictContains respFields "result" = false) :
    handleToolResponse (JValue.obj respFields) = Except.ok (JValue.arr [])
    ∧ (call_tool readyBridge "a" "t" (JValue.obj []) bareEvents).result
        = Except.ok (JValue.arr []) := by
  have h2n : dictLookup respFields "result" = none := by
    cases hx : dictLookup respFields "result" with
    | none => rfl
    | some v => simp [dictContains, hx] at h2
  refine ⟨?_, rfl⟩
  simp [handleToolResponse, pyIn, h1, pyGetD, h2n, extractText]

/-- C10, witness at the envelope carrying only `jsonrpc` and `id`. -/
theorem C10_witness :
    handleToolResponse (JValue.obj [("jsonrpc", JValue.str "2.0"),
        ("id", JValue.num 1)]) = Except.ok (JValue.arr [])
    ∧ (call_tool readyBridge "a" "t" (JValue.obj []) bareEvents).result
        = Except.ok (JValue.arr []) :=
  C10_missing_result_default [("jsonrpc", JValue.str "2.0"),
    ("id", JValue.num 1)] rfl rfl

end Mdk
